import Mathlib

/-!
# Verification of the URMSensor ultrasonic-rangefinder driver

Shallow embedding of the URMSensor Arduino library (files `URMSensor.h`,
`URMSensor.cpp` and the direct-port header variant).  The repository carries
two implementation variants of the class `URMSensor`:

* `V1` — the debug-pin variant: the first translation unit of
  `URMSensor.cpp` together with the second header in `URMSensor.h`.
  Attachment is recorded through the pin numbers (`URM_INVALID_PIN` marks
  "unattached"), `startMeasure` has the echo pre-check commented out, and
  `finishedMeasure` takes an out-parameter for the distance.

* `V2` — the direct-port variant: the second translation unit of
  `URMSensor.cpp` together with the header `unnamed/part_002`.  Attachment
  is an explicit `_isAttached` flag, `startMeasure` pre-checks the echo
  line, and `finishedMeasure` returns only the completion flag.

Modelling conventions:

* Arduino logic levels `HIGH`/`LOW` are `Bool` (`true`/`false`).
* `unsigned long` values are `Nat`; the wraparound subtraction
  `micros() - _startMeasureTime` is `usub32`, which reduces both operands
  modulo `2^32` exactly as 32-bit unsigned arithmetic does.  Clock readings
  are passed in as explicit `Nat` arguments (the environment), one per
  `micros()` call site; the two `micros()` reads that can occur inside a
  single `refreshState` call (in `getCurrentDuration` and in the immediately
  following `resetTime`) are modelled as the same instant `now`.
* The echo level observed by a call is an explicit `Bool` argument.
* Hardware side effects on the trigger pin are returned as the list of
  levels written to it (used to state "no trigger pulse is issued").
  Writes to the fixed oscilloscope-debug pins 8/11/12 of the `V1` variant
  and the `pinMode`/port-register bookkeeping touch no field of the class
  and are not modelled.
* `int _usPerCm` only ever holds the positive per-sensor constants, and in
  `_currentDuration / _usPerCm` it is converted to `unsigned long`; it is
  modelled as `Nat`, with `/` the truncating `Nat` division.
-/

/-- Arduino logic level HIGH. -/
def HIGH : Bool := true

/-- Arduino logic level LOW. -/
def LOW : Bool := false

/-- `2^32`, the modulus of Arduino `unsigned long` arithmetic. -/
def ULONG_MOD : Nat := 4294967296

/-- `URM_INVALID_VALUE` (= `0xFFFFFFFF`): sentinel for a failed measure. -/
def URM_INVALID_VALUE : Nat := 4294967295

/-- `URM_INVALID_PIN` (= 255): marker for an unassigned pin (variant V1). -/
def URM_INVALID_PIN : Nat := 255

/-- 32-bit unsigned subtraction `a - b`, as computed on `unsigned long`. -/
def usub32 (a b : Nat) : Nat := (ULONG_MOD + a % ULONG_MOD - b % ULONG_MOD) % ULONG_MOD

/-- The enum `URMState` of `URMSensor.h`. -/
inductive URMState
  | Idle
  | WaitingForPulse
  | Measuring
  | FinishedMeasure
deriving DecidableEq, Repr

/-- `getOppositeStateFor`: `(activeState == HIGH) ? LOW : HIGH`. -/
def getOppositeStateFor (activeState : Bool) : Bool :=
  if activeState = HIGH then LOW else HIGH

namespace V1

/-- Fields of class `URMSensor` in the debug-pin variant (second header of
`URMSensor.h`). -/
structure URMSensor where
  trigPin : Nat
  echoPin : Nat
  usPerCm : Nat
  timeoutForPulseStart : Nat
  maxPulseDuration : Nat
  trigActiveState : Bool
  echoActiveState : Bool
  trigPulseWidth : Nat
  startMeasureTime : Nat
  currentDuration : Nat
  currentState : URMState
deriving DecidableEq, Repr

/-- `isAttached()`: `(_trigPin != URM_INVALID_PIN) && (_echoPin != URM_INVALID_PIN)`. -/
def isAttached (s : URMSensor) : Bool :=
  (s.trigPin != URM_INVALID_PIN) && (s.echoPin != URM_INVALID_PIN)

/-- `attach(trigPin, echoPin, usPerCm, timeoutForPulseStart, maxPulseDuration,
trigActiveState, echoActiveState, trigPulseWidth)`.  The `pinMode` calls set
pin directions on the hardware and touch no field. -/
def attach (s : URMSensor) (trigPin echoPin usPerCm timeoutForPulseStart
    maxPulseDuration : Nat) (trigActiveState echoActiveState : Bool)
    (trigPulseWidth : Nat) : URMSensor :=
  { s with
    trigPin := trigPin
    echoPin := echoPin
    usPerCm := usPerCm
    timeoutForPulseStart := timeoutForPulseStart
    maxPulseDuration := maxPulseDuration
    trigActiveState := trigActiveState
    echoActiveState := echoActiveState
    trigPulseWidth := trigPulseWidth }

/-- `detach()`: marks both pins unassigned. -/
def detach (s : URMSensor) : URMSensor :=
  { s with trigPin := URM_INVALID_PIN, echoPin := URM_INVALID_PIN }

/-- `resetTime()`: zeroes `_currentDuration`, stamps `_startMeasureTime`
with the current `micros()` reading `t`. -/
def resetTime (s : URMSensor) (t : Nat) : URMSensor :=
  { s with currentDuration := 0, startMeasureTime := t }

/-- `convertCurrentDurationToDistance()`: `_currentDuration / _usPerCm`. -/
def convertCurrentDurationToDistance (s : URMSensor) : Nat :=
  s.currentDuration / s.usPerCm

/-- `isMeasuring()`: `_currentState == WaitingForPulse || _currentState ==
Measuring` (the `==` of the C++ enum is the decidable equality test). -/
def isMeasuring (s : URMSensor) : Bool :=
  decide (s.currentState = URMState.WaitingForPulse) ||
    decide (s.currentState = URMState.Measuring)

/-- `interruptMeasure()`. -/
def interruptMeasure (s : URMSensor) : URMSensor :=
  { s with currentState := URMState.Idle }

/-- `getState()`. -/
def getState (s : URMSensor) : URMState := s.currentState

/-- `getMeasuredDistance()`. -/
def getMeasuredDistance (s : URMSensor) : Nat :=
  if s.currentState ≠ URMState.FinishedMeasure then URM_INVALID_VALUE
  else convertCurrentDurationToDistance s

/-- `refreshState()` of the first translation unit of `URMSensor.cpp`
(the writes to debug pins 12/8/11 touch no field).  `now` is the `micros()`
reading of this call, `echoState` the level read from the echo pin.
`getCurrentDuration()` is the left operand of a `&&`, so it runs — and
stores into `_currentDuration` — on every poll in `WaitingForPulse` or
`Measuring`, whatever branch is then taken. -/
def refreshState (s : URMSensor) (now : Nat) (echoState : Bool) : URMSensor :=
  match s.currentState with
  | URMState.WaitingForPulse =>
      let d := usub32 now s.startMeasureTime
      let s1 := { s with currentDuration := d }
      if d > s1.timeoutForPulseStart ∧ echoState ≠ s1.echoActiveState then
        { s1 with currentState := URMState.Idle }
      else if echoState = s1.echoActiveState then
        resetTime { s1 with currentState := URMState.Measuring } now
      else s1
  | URMState.Measuring =>
      let d := usub32 now s.startMeasureTime
      let s1 := { s with currentDuration := d }
      if d > s1.maxPulseDuration ∧ echoState = s1.echoActiveState then
        { s1 with currentState := URMState.Idle }
      else if echoState ≠ s1.echoActiveState then
        { s1 with currentState := URMState.FinishedMeasure }
      else s1
  | URMState.FinishedMeasure => s
  | URMState.Idle => s

/-- `startMeasure()` of the first translation unit of `URMSensor.cpp`.  In
this variant the echo pre-check (`digitalRead(_echoPin) == _echoActiveState`)
is commented out in the source; only `isAttached()` is tested.  `tReset` is
the `micros()` reading of `resetTime()`, `now`/`echoAtPoll` the inputs of
the trailing `refreshState()` call.  The second component lists the levels
written to the trigger pin. -/
def startMeasure (s : URMSensor) (tReset now : Nat) (echoAtPoll : Bool) :
    URMSensor × List Bool :=
  if s.currentState = URMState.WaitingForPulse ∨ s.currentState = URMState.Measuring then
    (s, [])
  else if !isAttached s then
    ({ s with currentState := URMState.Idle }, [])
  else
    let s1 := { s with currentState := URMState.WaitingForPulse }
    let writes := [s1.trigActiveState, getOppositeStateFor s1.trigActiveState]
    let s2 := resetTime s1 tReset
    (refreshState s2 now echoAtPoll, writes)

/-- `finishedMeasure(unsigned long* distance)`.  The third component models
the out-parameter: `some v` when `*distance = v` is executed, `none` when
the pointed variable is left unchanged. -/
def finishedMeasure (s : URMSensor) (now : Nat) (echoState : Bool) :
    URMSensor × Bool × Option Nat :=
  if !isAttached s then
    ({ s with currentState := URMState.Idle }, true, some URM_INVALID_VALUE)
  else
    let s1 := refreshState s now echoState
    if isMeasuring s1 then (s1, false, none)
    else (s1, true, some (getMeasuredDistance s1))

/-- The loop `while (!finishedMeasure(&distance)) ;` of `measureDistance()`.
`distance` carries the current content of the local variable (initially
whatever garbage it held), `env n` supplies the `micros()` reading and the
echo level of the n-th `finishedMeasure` call, `fuel` bounds the number of
iterations (`none` = the while loop has not terminated within `fuel`). -/
def measureLoop (fuel : Nat) (s : URMSensor) (distance : Nat)
    (env : Nat → Nat × Bool) : Option (URMSensor × Nat) :=
  match fuel with
  | 0 => none
  | Nat.succ f =>
    let r := finishedMeasure s (env 0).1 (env 0).2
    let d := match r.2.2 with
      | some v => v
      | none => distance
    if r.2.1 then some (r.1, d)
    else measureLoop f r.1 d (fun n => env (n + 1))

/-- `measureDistance()` of the first translation unit: `startMeasure()`,
then `while (!finishedMeasure(&distance)) ;`, then `return distance`.
`init` is the initial (indeterminate) content of the local `distance`
variable; `env 0` feeds the `refreshState` call inside `startMeasure`, the
remaining `env` entries feed the loop. -/
def measureDistance (fuel : Nat) (s : URMSensor) (init tReset : Nat)
    (env : Nat → Nat × Bool) : Option Nat :=
  let r := startMeasure s tReset (env 0).1 (env 0).2
  Option.map (fun p => p.2) (measureLoop fuel r.1 init (fun n => env (n + 1)))

/-- Modelled from the spec (§4.2): the asynchronous path `measure()` is
compared against — "calls `start()`, then repeatedly calls
`finishedMeasure()` until it returns true", keeping only the machine's own
state.  This loop is the spec-side definition for the refinement claim. -/
def asyncLoop (fuel : Nat) (s : URMSensor) (env : Nat → Nat × Bool) :
    Option URMSensor :=
  match fuel with
  | 0 => none
  | Nat.succ f =>
    let r := finishedMeasure s (env 0).1 (env 0).2
    if r.2.1 then some r.1
    else asyncLoop f r.1 (fun n => env (n + 1))

/-- Modelled from the spec (§4.2): the whole asynchronous composition —
`start()`, then repeated `finishedMeasure()` until true, "then returns
`measuredDistance()`". -/
def asyncMeasureSpec (fuel : Nat) (s : URMSensor) (tReset : Nat)
    (env : Nat → Nat × Bool) : Option Nat :=
  let r := startMeasure s tReset (env 0).1 (env 0).2
  Option.map getMeasuredDistance (asyncLoop fuel r.1 (fun n => env (n + 1)))

end V1

namespace V2

/-- Fields of class `URMSensor` in the direct-port variant
(`unnamed/part_002`).  The port/mask bookkeeping of `setTrigPin`/`setEchoPin`
is pure hardware addressing and is not part of the machine state; attachment
is the `_isAttached` flag. -/
structure URMSensor where
  isAttached : Bool
  usPerCm : Nat
  timeoutForPulseStart : Nat
  maxPulseDuration : Nat
  trigActiveState : Bool
  echoActiveState : Bool
  trigPulseWidth : Nat
  startMeasureTime : Nat
  currentDuration : Nat
  currentState : URMState
deriving DecidableEq, Repr

/-- `attach(...)` of `unnamed/part_002`: records the profile and sets
`_isAttached = true` (the `setTrigPin`/`setEchoPin` register bookkeeping
touches no state-machine field). -/
def attach (s : URMSensor) (usPerCm timeoutForPulseStart maxPulseDuration : Nat)
    (trigActiveState echoActiveState : Bool) (trigPulseWidth : Nat) : URMSensor :=
  { s with
    usPerCm := usPerCm
    timeoutForPulseStart := timeoutForPulseStart
    maxPulseDuration := maxPulseDuration
    trigActiveState := trigActiveState
    echoActiveState := echoActiveState
    trigPulseWidth := trigPulseWidth
    isAttached := true }

/-- `detach()`: `_isAttached = false`. -/
def detach (s : URMSensor) : URMSensor :=
  { s with isAttached := false }

/-- `resetTime()`. -/
def resetTime (s : URMSensor) (t : Nat) : URMSensor :=
  { s with currentDuration := 0, startMeasureTime := t }

/-- `convertCurrentDurationToDistance()`. -/
def convertCurrentDurationToDistance (s : URMSensor) : Nat :=
  s.currentDuration / s.usPerCm

/-- `isMeasuring()`: `_currentState == WaitingForPulse || _currentState ==
Measuring` (the `==` of the C++ enum is the decidable equality test). -/
def isMeasuring (s : URMSensor) : Bool :=
  decide (s.currentState = URMState.WaitingForPulse) ||
    decide (s.currentState = URMState.Measuring)

/-- `interruptMeasure()`. -/
def interruptMeasure (s : URMSensor) : URMSensor :=
  { s with currentState := URMState.Idle }

/-- `getState()`. -/
def getState (s : URMSensor) : URMState := s.currentState

/-- `getMeasuredDistance()`. -/
def getMeasuredDistance (s : URMSensor) : Nat :=
  if s.currentState ≠ URMState.FinishedMeasure then URM_INVALID_VALUE
  else convertCurrentDurationToDistance s

/-- `refreshState()` of the second translation unit of `URMSensor.cpp`
(same switch as in V1, reading the echo via `fastDigitalReadEcho()`). -/
def refreshState (s : URMSensor) (now : Nat) (echoState : Bool) : URMSensor :=
  match s.currentState with
  | URMState.WaitingForPulse =>
      let d := usub32 now s.startMeasureTime
      let s1 := { s with currentDuration := d }
      if d > s1.timeoutForPulseStart ∧ echoState ≠ s1.echoActiveState then
        { s1 with currentState := URMState.Idle }
      else if echoState = s1.echoActiveState then
        resetTime { s1 with currentState := URMState.Measuring } now
      else s1
  | URMState.Measuring =>
      let d := usub32 now s.startMeasureTime
      let s1 := { s with currentDuration := d }
      if d > s1.maxPulseDuration ∧ echoState = s1.echoActiveState then
        { s1 with currentState := URMState.Idle }
      else if echoState ≠ s1.echoActiveState then
        { s1 with currentState := URMState.FinishedMeasure }
      else s1
  | URMState.FinishedMeasure => s
  | URMState.Idle => s

/-- `startMeasure()` of the second translation unit: here the echo
pre-check is active — `if (!isAttached() || (fastDigitalReadEcho() ==
_echoActiveState))` fails the measure.  `echoAtStart` is the level of that
pre-check read. -/
def startMeasure (s : URMSensor) (echoAtStart : Bool) (tReset now : Nat)
    (echoAtPoll : Bool) : URMSensor × List Bool :=
  if s.currentState = URMState.WaitingForPulse ∨ s.currentState = URMState.Measuring then
    (s, [])
  else if !s.isAttached || (echoAtStart == s.echoActiveState) then
    ({ s with currentState := URMState.Idle }, [])
  else
    let s1 := { s with currentState := URMState.WaitingForPulse }
    let writes := [s1.trigActiveState, getOppositeStateFor s1.trigActiveState]
    let s2 := resetTime s1 tReset
    (refreshState s2 now echoAtPoll, writes)

/-- `finishedMeasure()` (no out-parameter in this variant). -/
def finishedMeasure (s : URMSensor) (now : Nat) (echoState : Bool) :
    URMSensor × Bool :=
  if !s.isAttached then
    ({ s with currentState := URMState.Idle }, true)
  else
    let s1 := refreshState s now echoState
    (s1, !isMeasuring s1)

/-- The loop `while (!finishedMeasure()) ;` of `measureDistance()`. -/
def measureLoop (fuel : Nat) (s : URMSensor) (env : Nat → Nat × Bool) :
    Option URMSensor :=
  match fuel with
  | 0 => none
  | Nat.succ f =>
    let r := finishedMeasure s (env 0).1 (env 0).2
    if r.2 then some r.1
    else measureLoop f r.1 (fun n => env (n + 1))

/-- `measureDistance()` of the second translation unit: `startMeasure()`,
then `while (!finishedMeasure()) ;`, then `return getMeasuredDistance()`. -/
def measureDistance (fuel : Nat) (s : URMSensor) (echoAtStart : Bool)
    (tReset : Nat) (env : Nat → Nat × Bool) : Option Nat :=
  let r := startMeasure s echoAtStart tReset (env 0).1 (env 0).2
  Option.map getMeasuredDistance (measureLoop fuel r.1 (fun n => env (n + 1)))

/-- Modelled from the spec (§4.2): the asynchronous composition for this
variant — `start()`, repeated `finishedMeasure()` until it returns true,
then the `measuredDistance()` query. -/
def asyncLoop (fuel : Nat) (s : URMSensor) (env : Nat → Nat × Bool) :
    Option URMSensor :=
  match fuel with
  | 0 => none
  | Nat.succ f =>
    let r := finishedMeasure s (env 0).1 (env 0).2
    if r.2 then some r.1
    else asyncLoop f r.1 (fun n => env (n + 1))

/-- Modelled from the spec (§4.2): start, poll to completion, query. -/
def asyncMeasureSpec (fuel : Nat) (s : URMSensor) (echoAtStart : Bool)
    (tReset : Nat) (env : Nat → Nat × Bool) : Option Nat :=
  let r := startMeasure s echoAtStart tReset (env 0).1 (env 0).2
  Option.map getMeasuredDistance (asyncLoop fuel r.1 (fun n => env (n + 1)))

end V2

/-- C1: in a poll whose elapsed time already exceeds the applicable timeout
but whose echo reading simultaneously permits the successful transition
(active in `WaitingForPulse`, inactive in `Measuring`), `refreshState`
resolves to the successful transition (`Measuring`, respectively
`FinishedMeasure`), not to the `Idle` fault state — in both implementation
variants.  The fault branch requires failing echo in conjunction with the
timeout, so the echo-state check wins the tie. -/
theorem claim_C1_tiebreak :
    (∀ (s : V1.URMSensor) (now : Nat) (echo : Bool),
      (s.currentState = URMState.WaitingForPulse →
        usub32 now s.startMeasureTime > s.timeoutForPulseStart →
        echo = s.echoActiveState →
        (V1.refreshState s now echo).currentState = URMState.Measuring) ∧
      (s.currentState = URMState.Measuring →
        usub32 now s.startMeasureTime > s.maxPulseDuration →
        echo ≠ s.echoActiveState →
        (V1.refreshState s now echo).currentState = URMState.FinishedMeasure)) ∧
    (∀ (s : V2.URMSensor) (now : Nat) (echo : Bool),
      (s.currentState = URMState.WaitingForPulse →
        usub32 now s.startMeasureTime > s.timeoutForPulseStart →
        echo = s.echoActiveState →
        (V2.refreshState s now echo).currentState = URMState.Measuring) ∧
      (s.currentState = URMState.Measuring →
        usub32 now s.startMeasureTime > s.maxPulseDuration →
        echo ≠ s.echoActiveState →
        (V2.refreshState s now echo).currentState = URMState.FinishedMeasure)) := by
  constructor
  · intro s now echo
    constructor
    · intro hst _ he
      simp [V1.refreshState, hst, he, V1.resetTime]
    · intro hst _ he
      simp [V1.refreshState, hst, he]
  · intro s now echo
    constructor
    · intro hst _ he
      simp [V2.refreshState, hst, he, V2.resetTime]
    · intro hst _ he
      simp [V2.refreshState, hst, he]

/-- Witness for C1 at concrete inputs: a V1 sensor in `WaitingForPulse`
(timeout 5000, start 0, active-low echo) polled at `now = 6000` with the
echo active moves to `Measuring`; a V2 sensor in `Measuring` (max pulse 300)
polled at `now = 6000` with the echo inactive moves to `FinishedMeasure`. -/
theorem claim_C1_tiebreak_witness :
    (V1.refreshState ⟨9, 10, 50, 5000, 45000, false, false, 1, 0, 0,
        URMState.WaitingForPulse⟩ 6000 false).currentState = URMState.Measuring ∧
    (V2.refreshState ⟨true, 50, 5000, 300, false, false, 1, 0, 0,
        URMState.Measuring⟩ 6000 true).currentState = URMState.FinishedMeasure :=
  ⟨(claim_C1_tiebreak.1 ⟨9, 10, 50, 5000, 45000, false, false, 1, 0, 0,
      URMState.WaitingForPulse⟩ 6000 false).1 rfl (by decide) rfl,
   (claim_C1_tiebreak.2 ⟨true, 50, 5000, 300, false, false, 1, 0, 0,
      URMState.Measuring⟩ 6000 true).2 rfl (by decide) (by decide)⟩

/-- C2: a poll in `WaitingForPulse` with elapsed time above
`timeoutForPulseStart` and the echo not active moves to `Idle`; otherwise,
with the echo active, it moves to `Measuring` and resets the start
timestamp to the current time (and the running duration to 0), so the
`Measuring` phase times only the pulse width.  Both variants. -/
theorem claim_C2_waiting_transitions :
    (∀ (s : V1.URMSensor) (now : Nat) (echo : Bool),
      s.currentState = URMState.WaitingForPulse →
      ((usub32 now s.startMeasureTime > s.timeoutForPulseStart →
          echo ≠ s.echoActiveState →
          (V1.refreshState s now echo).currentState = URMState.Idle) ∧
       (echo = s.echoActiveState →
          (V1.refreshState s now echo).currentState = URMState.Measuring ∧
          (V1.refreshState s now echo).startMeasureTime = now ∧
          (V1.refreshState s now echo).currentDuration = 0))) ∧
    (∀ (s : V2.URMSensor) (now : Nat) (echo : Bool),
      s.currentState = URMState.WaitingForPulse →
      ((usub32 now s.startMeasureTime > s.timeoutForPulseStart →
          echo ≠ s.echoActiveState →
          (V2.refreshState s now echo).currentState = URMState.Idle) ∧
       (echo = s.echoActiveState →
          (V2.refreshState s now echo).currentState = URMState.Measuring ∧
          (V2.refreshState s now echo).startMeasureTime = now ∧
          (V2.refreshState s now echo).currentDuration = 0))) := by
  constructor
  · intro s now echo hst
    constructor
    · intro ht he
      simp [V1.refreshState, hst, he, ht]
    · intro he
      simp [V1.refreshState, hst, he, V1.resetTime]
  · intro s now echo hst
    constructor
    · intro ht he
      simp [V2.refreshState, hst, he, ht]
    · intro he
      simp [V2.refreshState, hst, he, V2.resetTime]

/-- Witness for C2 at concrete inputs: with timeout 5000 and start 0, a poll
at `now = 6000` with inactive echo (active-low profile, reading HIGH) yields
`Idle`; a poll at `now = 2000` with active echo yields `Measuring` with the
timestamp reset to 2000 and the running duration reset to 0. -/
theorem claim_C2_waiting_transitions_witness :
    (V1.refreshState ⟨9, 10, 50, 5000, 45000, false, false, 1, 0, 0,
        URMState.WaitingForPulse⟩ 6000 true).currentState = URMState.Idle ∧
    ((V2.refreshState ⟨true, 50, 5000, 45000, false, false, 1, 0, 0,
        URMState.WaitingForPulse⟩ 2000 false).currentState = URMState.Measuring ∧
     (V2.refreshState ⟨true, 50, 5000, 45000, false, false, 1, 0, 0,
        URMState.WaitingForPulse⟩ 2000 false).startMeasureTime = 2000 ∧
     (V2.refreshState ⟨true, 50, 5000, 45000, false, false, 1, 0, 0,
        URMState.WaitingForPulse⟩ 2000 false).currentDuration = 0) :=
  ⟨((claim_C2_waiting_transitions.1 ⟨9, 10, 50, 5000, 45000, false, false, 1, 0, 0,
      URMState.WaitingForPulse⟩ 6000 true) rfl).1 (by decide) (by decide),
   ((claim_C2_waiting_transitions.2 ⟨true, 50, 5000, 45000, false, false, 1, 0, 0,
      URMState.WaitingForPulse⟩ 2000 false) rfl).2 rfl⟩

/-- C3: a poll in `Measuring` with elapsed time above `maxPulseDuration` and
the echo still active moves to `Idle` (so never to `FinishedMeasure`);
otherwise, with the echo no longer active, it moves to `FinishedMeasure`
and the elapsed time since the `Measuring` timestamp is latched in
`currentDuration` as the measured pulse width.  Both variants. -/
theorem claim_C3_measuring_transitions :
    (∀ (s : V1.URMSensor) (now : Nat) (echo : Bool),
      s.currentState = URMState.Measuring →
      ((usub32 now s.startMeasureTime > s.maxPulseDuration →
          echo = s.echoActiveState →
          (V1.refreshState s now echo).currentState = URMState.Idle) ∧
       (echo ≠ s.echoActiveState →
          (V1.refreshState s now echo).currentState = URMState.FinishedMeasure ∧
          (V1.refreshState s now echo).currentDuration =
            usub32 now s.startMeasureTime))) ∧
    (∀ (s : V2.URMSensor) (now : Nat) (echo : Bool),
      s.currentState = URMState.Measuring →
      ((usub32 now s.startMeasureTime > s.maxPulseDuration →
          echo = s.echoActiveState →
          (V2.refreshState s now echo).currentState = URMState.Idle) ∧
       (echo ≠ s.echoActiveState →
          (V2.refreshState s now echo).currentState = URMState.FinishedMeasure ∧
          (V2.refreshState s now echo).currentDuration =
            usub32 now s.startMeasureTime))) := by
  constructor
  · intro s now echo hst
    constructor
    · intro ht he
      simp [V1.refreshState, hst, he, ht]
    · intro he
      simp [V1.refreshState, hst, he]
  · intro s now echo hst
    constructor
    · intro ht he
      simp [V2.refreshState, hst, he, ht]
    · intro he
      simp [V2.refreshState, hst, he]

/-- Witness for C3 at concrete inputs: with max pulse duration 300 and
timestamp 0, a poll at `now = 6000` with the echo still active yields `Idle`;
a poll at `now = 280` with the echo inactive yields `FinishedMeasure` with
280 µs latched. -/
theorem claim_C3_measuring_transitions_witness :
    (V1.refreshState ⟨9, 10, 50, 5000, 300, false, false, 1, 0, 0,
        URMState.Measuring⟩ 6000 false).currentState = URMState.Idle ∧
    ((V2.refreshState ⟨true, 50, 5000, 300, false, false, 1, 0, 0,
        URMState.Measuring⟩ 280 true).currentState = URMState.FinishedMeasure ∧
     (V2.refreshState ⟨true, 50, 5000, 300, false, false, 1, 0, 0,
        URMState.Measuring⟩ 280 true).currentDuration = usub32 280 0) :=
  ⟨((claim_C3_measuring_transitions.1 ⟨9, 10, 50, 5000, 300, false, false, 1, 0, 0,
      URMState.Measuring⟩ 6000 false) rfl).1 (by decide) rfl,
   ((claim_C3_measuring_transitions.2 ⟨true, 50, 5000, 300, false, false, 1, 0, 0,
      URMState.Measuring⟩ 280 true) rfl).2 (by decide)⟩

/-- C4: `getMeasuredDistance()` returns the sentinel `URM_INVALID_VALUE`
whenever the state is not exactly `FinishedMeasure`, and in state
`FinishedMeasure` it returns the latched microseconds divided (truncating
`Nat` division) by `usPerCm`.  It is a pure observation of the handle in
this embedding (`URMSensor → Nat`), so it modifies no state by
construction.  Both variants. -/
theorem claim_C4_getMeasuredDistance :
    (∀ (s : V1.URMSensor),
      (s.currentState ≠ URMState.FinishedMeasure →
        V1.getMeasuredDistance s = URM_INVALID_VALUE) ∧
      (s.currentState = URMState.FinishedMeasure →
        V1.getMeasuredDistance s = s.currentDuration / s.usPerCm)) ∧
    (∀ (s : V2.URMSensor),
      (s.currentState ≠ URMState.FinishedMeasure →
        V2.getMeasuredDistance s = URM_INVALID_VALUE) ∧
      (s.currentState = URMState.FinishedMeasure →
        V2.getMeasuredDistance s = s.currentDuration / s.usPerCm)) := by
  constructor
  · intro s
    constructor
    · intro h
      simp [V1.getMeasuredDistance, h]
    · intro h
      simp [V1.getMeasuredDistance, V1.convertCurrentDurationToDistance, h]
  · intro s
    constructor
    · intro h
      simp [V2.getMeasuredDistance, h]
    · intro h
      simp [V2.getMeasuredDistance, V2.convertCurrentDurationToDistance, h]

/-- Witness for C4 at concrete inputs: an idle V1 handle reports the
sentinel; a finished V2 handle with 300 µs latched and 50 µs/cm reports
300 / 50 = 6 cm. -/
theorem claim_C4_getMeasuredDistance_witness :
    V1.getMeasuredDistance ⟨9, 10, 50, 5000, 45000, false, false, 1, 0, 300,
        URMState.Idle⟩ = URM_INVALID_VALUE ∧
    V2.getMeasuredDistance ⟨true, 50, 5000, 45000, false, false, 1, 0, 300,
        URMState.FinishedMeasure⟩ = 300 / 50 :=
  ⟨(claim_C4_getMeasuredDistance.1 ⟨9, 10, 50, 5000, 45000, false, false, 1, 0, 300,
      URMState.Idle⟩).1 (by decide),
   (claim_C4_getMeasuredDistance.2 ⟨true, 50, 5000, 45000, false, false, 1, 0, 300,
      URMState.FinishedMeasure⟩).2 rfl⟩

/-- C8: `startMeasure()` on a handle that is already measuring (state
`WaitingForPulse` or `Measuring`) is a complete no-op — the returned handle
is the input handle, every field included, and the trigger-write list is
empty.  Both variants. -/
theorem claim_C8_startMeasure_noop :
    (∀ (s : V1.URMSensor) (tReset now : Nat) (echo : Bool),
      (s.currentState = URMState.WaitingForPulse ∨
        s.currentState = URMState.Measuring) →
      V1.startMeasure s tReset now echo = (s, [])) ∧
    (∀ (s : V2.URMSensor) (echoAtStart : Bool) (tReset now : Nat) (echo : Bool),
      (s.currentState = URMState.WaitingForPulse ∨
        s.currentState = URMState.Measuring) →
      V2.startMeasure s echoAtStart tReset now echo = (s, [])) := by
  constructor
  · intro s tReset now echo h
    simp [V1.startMeasure, h]
  · intro s echoAtStart tReset now echo h
    simp [V2.startMeasure, h]

/-- Witness for C8 at a concrete input: a V1 handle in `WaitingForPulse`
and a V2 handle in `Measuring` are returned unchanged with no trigger
write. -/
theorem claim_C8_startMeasure_noop_witness :
    V1.startMeasure ⟨9, 10, 50, 5000, 45000, false, false, 1, 123, 7,
        URMState.WaitingForPulse⟩ 777 888 true =
      (⟨9, 10, 50, 5000, 45000, false, false, 1, 123, 7,
        URMState.WaitingForPulse⟩, []) ∧
    V2.startMeasure ⟨true, 50, 5000, 45000, false, false, 1, 123, 7,
        URMState.Measuring⟩ false 777 888 true =
      (⟨true, 50, 5000, 45000, false, false, 1, 123, 7,
        URMState.Measuring⟩, []) :=
  ⟨claim_C8_startMeasure_noop.1 ⟨9, 10, 50, 5000, 45000, false, false, 1, 123, 7,
      URMState.WaitingForPulse⟩ 777 888 true (Or.inl rfl),
   claim_C8_startMeasure_noop.2 ⟨true, 50, 5000, 45000, false, false, 1, 123, 7,
      URMState.Measuring⟩ false 777 888 true (Or.inr rfl)⟩

/-- C10: `attach()` writes only the pin bindings (V1), the profile fields
and the attached flag (V2); the measurement state, the start timestamp and
the latched duration are carried over unchanged — in particular re-attaching
a handle in `FinishedMeasure`, `WaitingForPulse` or any other state does not
reset the state machine to `Idle`. -/
theorem claim_C10_attach_frame :
    (∀ (s : V1.URMSensor) (tp ep upc tps mpd : Nat) (tas eas : Bool) (tpw : Nat),
      V1.attach s tp ep upc tps mpd tas eas tpw =
        { trigPin := tp, echoPin := ep, usPerCm := upc,
          timeoutForPulseStart := tps, maxPulseDuration := mpd,
          trigActiveState := tas, echoActiveState := eas, trigPulseWidth := tpw,
          startMeasureTime := s.startMeasureTime,
          currentDuration := s.currentDuration,
          currentState := s.currentState }) ∧
    (∀ (s : V2.URMSensor) (upc tps mpd : Nat) (tas eas : Bool) (tpw : Nat),
      V2.attach s upc tps mpd tas eas tpw =
        { isAttached := true, usPerCm := upc,
          timeoutForPulseStart := tps, maxPulseDuration := mpd,
          trigActiveState := tas, echoActiveState := eas, trigPulseWidth := tpw,
          startMeasureTime := s.startMeasureTime,
          currentDuration := s.currentDuration,
          currentState := s.currentState }) := by
  constructor
  · intro s tp ep upc tps mpd tas eas tpw
    rfl
  · intro s upc tps mpd tas eas tpw
    rfl

/-- Counterexample for C5: `detach()` does not reset the state machine.  A
V1 handle in `FinishedMeasure` with 300 µs latched at 50 µs/cm, once
detached, still reports the valid distance 6 cm from `getMeasuredDistance()`
(not the sentinel), and its state is still `FinishedMeasure`. -/
theorem claim_C5_counterexample :
    V1.getMeasuredDistance (V1.detach ⟨9, 10, 50, 50000, 45000, false, false, 1,
        1000, 300, URMState.FinishedMeasure⟩) = 6 ∧
    (6 : Nat) ≠ URM_INVALID_VALUE ∧
    (V1.detach ⟨9, 10, 50, 50000, 45000, false, false, 1, 1000, 300,
        URMState.FinishedMeasure⟩).currentState = URMState.FinishedMeasure := by
  decide

/-- C5 as amended: `detach()` itself leaves the measurement state unchanged
(it only clears the attachment), so a distance query issued directly after
`detach()` can still return the latched distance.  What does hold: after
`detach()` the handle is unattached; the next `finishedMeasure()` call
forces the state to `Idle`, reports completion (writing the sentinel
through the out-parameter where one exists), and any distance query after
it returns the sentinel; `startMeasure()` on a detached handle that is not
mid-measurement likewise aborts to `Idle` without driving the trigger.
Both variants. -/
theorem claim_C5_amended :
    (∀ (s : V1.URMSensor) (now tReset now2 : Nat) (echo echo2 : Bool),
      V1.isAttached (V1.detach s) = false ∧
      (V1.detach s).currentState = s.currentState ∧
      V1.finishedMeasure (V1.detach s) now echo =
        ({ V1.detach s with currentState := URMState.Idle }, true,
          some URM_INVALID_VALUE) ∧
      V1.getMeasuredDistance (V1.finishedMeasure (V1.detach s) now echo).1 =
        URM_INVALID_VALUE ∧
      (s.currentState ≠ URMState.WaitingForPulse →
        s.currentState ≠ URMState.Measuring →
        V1.startMeasure (V1.detach s) tReset now2 echo2 =
          ({ V1.detach s with currentState := URMState.Idle }, []))) ∧
    (∀ (s : V2.URMSensor) (now tReset now2 : Nat) (echoAtStart echo echo2 : Bool),
      (V2.detach s).isAttached = false ∧
      (V2.detach s).currentState = s.currentState ∧
      V2.finishedMeasure (V2.detach s) now echo =
        ({ V2.detach s with currentState := URMState.Idle }, true) ∧
      V2.getMeasuredDistance (V2.finishedMeasure (V2.detach s) now echo).1 =
        URM_INVALID_VALUE ∧
      (s.currentState ≠ URMState.WaitingForPulse →
        s.currentState ≠ URMState.Measuring →
        V2.startMeasure (V2.detach s) echoAtStart tReset now2 echo2 =
          ({ V2.detach s with currentState := URMState.Idle }, []))) := by
  constructor
  · intro s now tReset now2 echo echo2
    refine ⟨by simp [V1.detach, V1.isAttached], rfl, ?_, ?_, ?_⟩
    · simp [V1.finishedMeasure, V1.detach, V1.isAttached]
    · simp [V1.finishedMeasure, V1.detach, V1.isAttached, V1.getMeasuredDistance]
    · intro h1 h2
      simp [V1.startMeasure, V1.detach, V1.isAttached, h1, h2]
  · intro s now tReset now2 echoAtStart echo echo2
    refine ⟨rfl, rfl, ?_, ?_, ?_⟩
    · simp [V2.finishedMeasure, V2.detach]
    · simp [V2.finishedMeasure, V2.detach, V2.getMeasuredDistance]
    · intro h1 h2
      simp [V2.startMeasure, V2.detach, h1, h2]

/-- Witness for the amended C5 at a concrete input: detaching a finished V1
handle and a finished V2 handle, then calling `startMeasure()`, aborts to
`Idle` with no trigger write. -/
theorem claim_C5_amended_witness :
    V1.startMeasure (V1.detach ⟨9, 10, 50, 50000, 45000, false, false, 1, 1000,
        300, URMState.FinishedMeasure⟩) 0 0 true =
      ({ V1.detach ⟨9, 10, 50, 50000, 45000, false, false, 1, 1000, 300,
          URMState.FinishedMeasure⟩ with currentState := URMState.Idle }, []) ∧
    V2.startMeasure (V2.detach ⟨true, 50, 50000, 45000, false, false, 1, 1000,
        300, URMState.FinishedMeasure⟩) true 0 0 true =
      ({ V2.detach ⟨true, 50, 50000, 45000, false, false, 1, 1000, 300,
          URMState.FinishedMeasure⟩ with currentState := URMState.Idle }, []) :=
  ⟨(claim_C5_amended.1 ⟨9, 10, 50, 50000, 45000, false, false, 1, 1000, 300,
      URMState.FinishedMeasure⟩ 0 0 0 true true).2.2.2.2 (by decide) (by decide),
   (claim_C5_amended.2 ⟨true, 50, 50000, 45000, false, false, 1, 1000, 300,
      URMState.FinishedMeasure⟩ 0 0 0 true true true).2.2.2.2 (by decide) (by decide)⟩

/-- Counterexample for C6: in the debug-pin variant (first translation unit
of `URMSensor.cpp`) the echo pre-check is commented out, so `startMeasure()`
on an attached idle handle whose active-low echo line already reads active
(LOW) does not abort to `Idle`: it drives the trigger pin (writes
`[LOW, HIGH]`) and the synchronous poll at the end of `startMeasure()`
immediately moves the machine to `Measuring`. -/
theorem claim_C6_counterexample :
    (V1.startMeasure ⟨9, 10, 50, 5000, 45000, false, false, 1, 0, 0,
        URMState.Idle⟩ 1000 1000 false).1.currentState = URMState.Measuring ∧
    (V1.startMeasure ⟨9, 10, 50, 5000, 45000, false, false, 1, 0, 0,
        URMState.Idle⟩ 1000 1000 false).2 = [false, true] := by
  decide

/-- C6 as amended: only the direct-port variant pre-checks the echo line —
there, `startMeasure()` on an attached, non-measuring handle whose echo
already reads active aborts to `Idle` and writes nothing to the trigger pin;
in the debug-pin variant the pre-check is commented out, so `startMeasure()`
issues the trigger pulse and, the echo being active at the closing poll,
enters `Measuring` directly. -/
theorem claim_C6_echo_precheck_amended :
    (∀ (s : V2.URMSensor) (tReset now : Nat) (echoAtPoll : Bool),
      s.currentState ≠ URMState.WaitingForPulse →
      s.currentState ≠ URMState.Measuring →
      V2.startMeasure s s.echoActiveState tReset now echoAtPoll =
        ({ s with currentState := URMState.Idle }, [])) ∧
    (∀ (s : V1.URMSensor) (tReset now : Nat),
      s.currentState = URMState.Idle →
      V1.isAttached s = true →
      (V1.startMeasure s tReset now s.echoActiveState).1.currentState =
        URMState.Measuring ∧
      (V1.startMeasure s tReset now s.echoActiveState).2 =
        [s.trigActiveState, getOppositeStateFor s.trigActiveState]) := by
  constructor
  · intro s tReset now echoAtPoll h1 h2
    simp [V2.startMeasure, h1, h2]
  · intro s tReset now hst hatt
    constructor
    · simp [V1.startMeasure, hst, hatt, V1.resetTime, V1.refreshState]
    · simp [V1.startMeasure, hst, hatt]

/-- Witness for the amended C6 at concrete inputs: an attached idle V2
handle with an already-active echo aborts to `Idle` without a trigger
write; the matching attached idle V1 handle instead triggers and lands in
`Measuring`. -/
theorem claim_C6_echo_precheck_amended_witness :
    V2.startMeasure ⟨true, 50, 5000, 45000, false, false, 1, 0, 0,
        URMState.Idle⟩ false 1000 1000 false =
      ({ isAttached := true, usPerCm := 50, timeoutForPulseStart := 5000,
         maxPulseDuration := 45000, trigActiveState := false,
         echoActiveState := false, trigPulseWidth := 1, startMeasureTime := 0,
         currentDuration := 0, currentState := URMState.Idle }, []) ∧
    ((V1.startMeasure ⟨9, 10, 50, 5000, 45000, false, false, 1, 0, 0,
        URMState.Idle⟩ 1000 1000 false).1.currentState = URMState.Measuring ∧
     (V1.startMeasure ⟨9, 10, 50, 5000, 45000, false, false, 1, 0, 0,
        URMState.Idle⟩ 1000 1000 false).2 = [false, true]) :=
  ⟨claim_C6_echo_precheck_amended.1 ⟨true, 50, 5000, 45000, false, false, 1, 0, 0,
      URMState.Idle⟩ 1000 1000 false (by decide) (by decide),
   claim_C6_echo_precheck_amended.2 ⟨9, 10, 50, 5000, 45000, false, false, 1, 0, 0,
      URMState.Idle⟩ 1000 1000 rfl (by decide)⟩

/-- C7: `finishedMeasure()` on an unattached handle forces the state to
`Idle` and reports true immediately — without polling, the rest of the
handle unchanged — writing the sentinel through the out-parameter where one
exists (V1); on an attached handle it performs exactly one `refreshState()`
and reports true exactly when the resulting state is neither
`WaitingForPulse` nor `Measuring`.  Both variants. -/
theorem claim_C7_finishedMeasure_contract :
    (∀ (s : V1.URMSensor) (now : Nat) (echo : Bool),
      (V1.isAttached s = false →
        V1.finishedMeasure s now echo =
          ({ s with currentState := URMState.Idle }, true,
            some URM_INVALID_VALUE)) ∧
      (V1.isAttached s = true →
        (V1.finishedMeasure s now echo).1 = V1.refreshState s now echo ∧
        ((V1.finishedMeasure s now echo).2.1 = true ↔
          ¬((V1.refreshState s now echo).currentState = URMState.WaitingForPulse ∨
            (V1.refreshState s now echo).currentState = URMState.Measuring)))) ∧
    (∀ (s : V2.URMSensor) (now : Nat) (echo : Bool),
      (s.isAttached = false →
        V2.finishedMeasure s now echo =
          ({ s with currentState := URMState.Idle }, true)) ∧
      (s.isAttached = true →
        (V2.finishedMeasure s now echo).1 = V2.refreshState s now echo ∧
        ((V2.finishedMeasure s now echo).2 = true ↔
          ¬((V2.refreshState s now echo).currentState = URMState.WaitingForPulse ∨
            (V2.refreshState s now echo).currentState = URMState.Measuring)))) := by
  constructor
  · intro s now echo
    constructor
    · intro h
      simp [V1.finishedMeasure, h]
    · intro h
      by_cases hm : V1.isMeasuring (V1.refreshState s now echo) = true
      · have hm2 := hm
        simp [V1.isMeasuring] at hm2
        simp [V1.finishedMeasure, h, hm, V1.isMeasuring, hm2]
      · have hm2 := hm
        simp [V1.isMeasuring] at hm2
        simp [V1.finishedMeasure, h, hm, V1.isMeasuring, hm2]
  · intro s now echo
    constructor
    · intro h
      simp [V2.finishedMeasure, h]
    · intro h
      refine ⟨by simp [V2.finishedMeasure, h], ?_⟩
      have h2 : (V2.finishedMeasure s now echo).2 =
          !V2.isMeasuring (V2.refreshState s now echo) := by
        simp [V2.finishedMeasure, h]
      rw [h2]
      simp [V2.isMeasuring, not_or]

/-- Witness for C7 at concrete inputs: a detached V1 handle (pins 255) in
`Measuring` reports finished with the sentinel and is forced to `Idle`; an
attached idle V2 handle polls once and reports finished. -/
theorem claim_C7_finishedMeasure_contract_witness :
    V1.finishedMeasure ⟨255, 255, 50, 5000, 45000, false, false, 1, 0, 0,
        URMState.Measuring⟩ 100 true =
      ({ trigPin := 255, echoPin := 255, usPerCm := 50,
         timeoutForPulseStart := 5000, maxPulseDuration := 45000,
         trigActiveState := false, echoActiveState := false, trigPulseWidth := 1,
         startMeasureTime := 0, currentDuration := 0,
         currentState := URMState.Idle }, true, some URM_INVALID_VALUE) ∧
    ((V2.finishedMeasure ⟨true, 50, 5000, 45000, false, false, 1, 0, 0,
        URMState.Idle⟩ 100 true).2 = true ↔
      ¬((V2.refreshState ⟨true, 50, 5000, 45000, false, false, 1, 0, 0,
          URMState.Idle⟩ 100 true).currentState = URMState.WaitingForPulse ∨
        (V2.refreshState ⟨true, 50, 5000, 45000, false, false, 1, 0, 0,
          URMState.Idle⟩ 100 true).currentState = URMState.Measuring)) :=
  ⟨(claim_C7_finishedMeasure_contract.1 ⟨255, 255, 50, 5000, 45000, false, false,
      1, 0, 0, URMState.Measuring⟩ 100 true).1 (by decide),
   ((claim_C7_finishedMeasure_contract.2 ⟨true, 50, 5000, 45000, false, false,
      1, 0, 0, URMState.Idle⟩ 100 true).2 (by decide)).2⟩

/-- Helper for C9: the out-parameter of the V1 `finishedMeasure` is written
exactly when the call reports completion, and then holds the
measured-distance query of the resulting handle (on an unattached handle the
sentinel it writes coincides with `getMeasuredDistance` of the forced `Idle`
handle). -/
theorem V1.finishedMeasure_distance_char (s : V1.URMSensor) (now : Nat)
    (echo : Bool) :
    (V1.finishedMeasure s now echo).2.2 =
      (if (V1.finishedMeasure s now echo).2.1 = true then
        some (V1.getMeasuredDistance (V1.finishedMeasure s now echo).1)
      else none) := by
  by_cases h : V1.isAttached s = true
  · by_cases hm : V1.isMeasuring (V1.refreshState s now echo) = true
    · simp [V1.finishedMeasure, h, hm]
    · simp [V1.finishedMeasure, h, hm]
  · have h2 : V1.isAttached s = false := by
      simpa using h
    simp [V1.finishedMeasure, h2, V1.getMeasuredDistance]

/-- Helper for C9: the V1 `measureDistance` while-loop computes, step by
step, the spec-side poll loop, pairing the final handle with its
measured-distance query; the initial content of the local `distance`
variable is irrelevant. -/
theorem V1.measureLoop_eq_asyncLoop_v1 (fuel : Nat) :
    ∀ (s : V1.URMSensor) (d : Nat) (env : Nat → Nat × Bool),
      V1.measureLoop fuel s d env =
        Option.map (fun s2 => (s2, V1.getMeasuredDistance s2))
          (V1.asyncLoop fuel s env) := by
  induction fuel with
  | zero =>
    intro s d env
    rfl
  | succ f ih =>
    intro s d env
    have hch := V1.finishedMeasure_distance_char s (env 0).1 (env 0).2
    by_cases hfin : (V1.finishedMeasure s (env 0).1 (env 0).2).2.1 = true
    · rw [hfin] at hch
      simp only [if_true] at hch
      simp [V1.measureLoop, V1.asyncLoop, hfin, hch]
    · have hfin2 : (V1.finishedMeasure s (env 0).1 (env 0).2).2.1 = false := by
        simpa using hfin
      rw [hfin2] at hch
      simp only [Bool.false_eq_true, if_false] at hch
      simp [V1.measureLoop, V1.asyncLoop, hfin2, hch, ih]

/-- Helper for C9: in the V2 variant the `measureDistance` while-loop and
the spec-side poll loop are the same iteration. -/
theorem V2.measureLoop_eq_asyncLoop_v2 (fuel : Nat) :
    ∀ (s : V2.URMSensor) (env : Nat → Nat × Bool),
      V2.measureLoop fuel s env = V2.asyncLoop fuel s env := by
  induction fuel with
  | zero =>
    intro s env
    rfl
  | succ f ih =>
    intro s env
    simp [V2.measureLoop, V2.asyncLoop, ih]

/-- C9: the synchronous facade `measureDistance()` is exactly the
composition of the asynchronous operations — `startMeasure()`, repeated
`finishedMeasure()` until it reports true, then the measured-distance
query — for every handle, every fuel bound and every environment (clock
readings and echo levels), in both variants; in V1 this holds whatever
indeterminate value the local `distance` variable started with, so the
synchronous path yields exactly the value of the asynchronous path and
passes through exactly the states the asynchronous path reaches. -/
theorem claim_C9_sync_equals_async :
    (∀ (fuel : Nat) (s : V1.URMSensor) (init tReset : Nat)
        (env : Nat → Nat × Bool),
      V1.measureDistance fuel s init tReset env =
        V1.asyncMeasureSpec fuel s tReset env) ∧
    (∀ (fuel : Nat) (s : V2.URMSensor) (echoAtStart : Bool) (tReset : Nat)
        (env : Nat → Nat × Bool),
      V2.measureDistance fuel s echoAtStart tReset env =
        V2.asyncMeasureSpec fuel s echoAtStart tReset env) := by
  constructor
  · intro fuel s init tReset env
    unfold V1.measureDistance V1.asyncMeasureSpec
    simp only [V1.measureLoop_eq_asyncLoop_v1, Option.map_map]
    rfl
  · intro fuel s echoAtStart tReset env
    unfold V2.measureDistance V2.asyncMeasureSpec
    simp only [V2.measureLoop_eq_asyncLoop_v2]
